import Mathlib

/-!
Shallow embedding of the supplier-studio-python repository core
(`src/ImageToText.py`, `src/veo_video_generator.py`,
`src/routers/main_controller.py`, `src/services/veo_video_service.py`,
`src/MongoRepo.py`) together with theorems settling the frozen claims
about it.  Python strings are modelled as `String` or `List Char`,
Python `None` as `Option`, Python dicts as lookup functions, and the
stateful document store as an explicit function from ids to documents.
-/

/- ===== Python string helpers ===================================== -/

/-- ASCII whitespace recognised by Python `str.split()` with no
arguments (space, tab, newline, carriage return, vertical tab,
form feed). -/
def isSpace (c : Char) : Bool :=
  c = ' ' || c = '\t' || c = '\n' || c = '\r' || c = '\x0b' || c = '\x0c'

/-- Accumulator-based tokenizer: `pyTokensAux s acc` walks `s`
collecting the current in-progress word in `acc` (reversed). -/
def pyTokensAux : List Char → List Char → List (List Char)
  | [], acc => if acc.isEmpty then [] else [acc.reverse]
  | c :: rest, acc =>
    if isSpace c then
      if acc.isEmpty then pyTokensAux rest []
      else acc.reverse :: pyTokensAux rest []
    else pyTokensAux rest (c :: acc)

/-- Python `s.split()` (no separator argument): the list of maximal
runs of non-whitespace characters of `s`. -/
def pyTokens (s : List Char) : List (List Char) := pyTokensAux s []

/-- Characters of an optional text; `none` (Python `None`) has no
characters. -/
def textChars : Option String → List Char
  | none => []
  | some s => s.data

/-- Embedding of `count_words` (src/ImageToText.py lines 37-41):
`if not text: return 0` (true for `None` and for the empty string),
otherwise `len(text.split())`. -/
def count_words (text : Option String) : Nat :=
  match text with
  | none => 0
  | some t => if t = "" then 0 else (pyTokens t.data).length

theorem pyTokensAux_ne_nil_of_acc (s acc : List Char) (h : acc ≠ []) :
    pyTokensAux s acc ≠ [] := by
  induction s generalizing acc with
  | nil =>
    simp only [pyTokensAux, List.isEmpty_iff]
    rw [if_neg h]
    simp
  | cons c rest ih =>
    have hne : ¬(acc.isEmpty = true) := by
      simp only [List.isEmpty_iff]; exact h
    simp only [pyTokensAux]
    by_cases hc : isSpace c
    · rw [if_pos hc, if_neg hne]
      simp
    · rw [if_neg hc]
      exact ih (c :: acc) (by simp)

theorem pyTokensAux_nil_of_spaces (s : List Char)
    (h : ∀ c ∈ s, isSpace c = true) : pyTokensAux s [] = [] := by
  induction s with
  | nil => simp [pyTokensAux]
  | cons c rest ih =>
    simp only [pyTokensAux]
    rw [if_pos (h c (by simp))]
    rw [if_pos (by simp : ([] : List Char).isEmpty = true)]
    exact ih (fun d hd => h d (by simp [hd]))

theorem pyTokensAux_ne_nil_of_nonspace (s : List Char) (acc : List Char)
    (h : ∃ c ∈ s, isSpace c = false) : pyTokensAux s acc ≠ [] := by
  induction s generalizing acc with
  | nil => rcases h with ⟨c, hc, _⟩; cases hc
  | cons c rest ih =>
    simp only [pyTokensAux]
    by_cases hc : isSpace c
    · rw [if_pos hc]
      have hrest : ∃ d ∈ rest, isSpace d = false := by
        rcases h with ⟨d, hd, hds⟩
        rcases List.mem_cons.mp hd with h1 | h2
        · subst h1; rw [hc] at hds; cases hds
        · exact ⟨d, h2, hds⟩
      by_cases ha : acc.isEmpty
      · rw [if_pos ha]; exact ih [] hrest
      · rw [if_neg ha]; simp
    · rw [if_neg hc]
      exact pyTokensAux_ne_nil_of_acc rest (c :: acc) (by simp)

/-- The tokenizer yields no tokens exactly when every character is
whitespace. -/
theorem pyTokens_eq_nil_iff (s : List Char) :
    pyTokens s = [] ↔ ∀ c ∈ s, isSpace c = true := by
  constructor
  · intro h
    by_contra hc
    push_neg at hc
    rcases hc with ⟨c, hcs, hcns⟩
    exact pyTokensAux_ne_nil_of_nonspace s []
      ⟨c, hcs, Bool.eq_false_iff.mpr hcns⟩ h
  · exact pyTokensAux_nil_of_spaces s

/- ===== Retry loop of analyze_image_from_url ====================== -/

/-- Observable outcome of one run of the analyze loop: the returned
text (`None` when the function returns `None`), how many times the
underlying model was invoked, and how many loop iterations ran. -/
structure AnalyzeOut where
  result : Option String
  modelCalls : Nat
  iterations : Nat
deriving DecidableEq

/-- Embedding of the `for attempt in range(max_retries)` loop of
`analyze_image_from_url` (src/ImageToText.py lines 66-105), run
against a stub model that answers successive calls with the entries of
`stub` (and raises when `stub` is exhausted).  As in the source, the
`client.models.generate_content` call is indented inside the
`else:` branch of `if attempt == 0`, so on the iteration with
`attempt == 0` no model call happens and reading `response.text`
raises a NameError that the `except` clause swallows.  `remaining` is
the number of loop iterations left (`maxRetries - attempt`);
`responseVar` is the Python local `response` (`none` = still unbound);
`calls` counts model invocations so far. -/
def analyzeLoop (minWords maxRetries : Nat) :
    Nat → Nat → List String → Option String → Nat → AnalyzeOut
  | 0, attempt, _, _, calls => ⟨none, calls, attempt⟩
  | remaining + 1, attempt, stub, responseVar, calls =>
    if attempt = 0 then
      match responseVar with
      | none =>
        if attempt = maxRetries - 1 then ⟨none, calls, attempt + 1⟩
        else analyzeLoop minWords maxRetries remaining (attempt + 1) stub none calls
      | some prev =>
        if minWords ≤ count_words (some prev) then ⟨some prev, calls, attempt + 1⟩
        else if attempt < maxRetries - 1 then
          analyzeLoop minWords maxRetries remaining (attempt + 1) stub (some prev) calls
        else ⟨some prev, calls, attempt + 1⟩
    else
      match stub with
      | [] =>
        if attempt = maxRetries - 1 then ⟨none, calls + 1, attempt + 1⟩
        else analyzeLoop minWords maxRetries remaining (attempt + 1) [] responseVar (calls + 1)
      | text :: rest =>
        if minWords ≤ count_words (some text) then ⟨some text, calls + 1, attempt + 1⟩
        else if attempt < maxRetries - 1 then
          analyzeLoop minWords maxRetries remaining (attempt + 1) rest (some text) (calls + 1)
        else ⟨some text, calls + 1, attempt + 1⟩

/-- Embedding of `analyze_image_from_url` (src/ImageToText.py lines
43-105) against a stub model: if the image fetch failed the function
returns `None` before the loop; otherwise it runs the retry loop. -/
def analyze_image_from_url (image : Option Unit) (stub : List String)
    (maxRetries minWords : Nat) : AnalyzeOut :=
  match image with
  | none => ⟨none, 0, 0⟩
  | some _ => analyzeLoop minWords maxRetries maxRetries 0 stub none 0

/-- A text of `n` whitespace-separated copies of the word `w`. -/
def mkText (w : String) : Nat → String
  | 0 => ""
  | 1 => w
  | n + 2 => w ++ " " ++ mkText w (n + 1)

/- ===== Claims C2, C4, C6 ========================================= -/

/-- Claim C4 counterexample: the text consisting of a single space is
neither empty nor absent, yet `count_words` returns 0 for it, so
"countWords(T) equals 0 if and only if T is empty or absent" fails in
the only-if direction. -/
theorem count_words_whitespace_counterexample :
    count_words (some " ") = 0 ∧ (some " " ≠ (none : Option String)) ∧ " " ≠ "" := by
  refine ⟨by decide, by simp, by decide⟩

/-- Claim C4 (amended): `countWords(T)` always equals the number of
whitespace-separated tokens of `T` (0 when `T` is absent), and it is 0
exactly when `T` is absent, empty, or consists solely of whitespace. -/
theorem count_words_amended (t : Option String) :
    count_words t = (pyTokens (textChars t)).length ∧
    (count_words t = 0 ↔ ∀ c ∈ textChars t, isSpace c = true) := by
  cases t with
  | none => simp [count_words, textChars, pyTokens, pyTokensAux]
  | some s =>
    by_cases hs : s = ""
    · subst hs
      constructor
      · simp [count_words, textChars, pyTokens, pyTokensAux]
      · constructor
        · intro _ c hc
          simp [textChars] at hc
        · intro _
          simp [count_words]
    · have h1 : count_words (some s) = (pyTokens s.data).length := by
        simp [count_words, hs]
      refine ⟨by simpa [textChars] using h1, ?_⟩
      rw [h1]
      rw [List.length_eq_zero]
      simpa [textChars] using pyTokens_eq_nil_iff s.data

/-- Witness for claim C4 (amended): a three-word text counts three
words. -/
theorem count_words_amended_witness :
    count_words (some "one two three") = 3 := by
  rw [(count_words_amended (some "one two three")).1]
  decide

/-- Claim C2 (code behaviour at the failing input): with an image in
hand, stub responses of 10, 20 and 60 words, maxAttempts = 5 and
minWords = 50, the loop runs 4 iterations but only 3 of them invoke
the model: the first iteration performs no model call (the call is
indented into the retry-only branch) and its swallowed NameError burns
one attempt; the 60-word text is still returned. -/
theorem analyze_c2_failing_input :
    analyze_image_from_url (some ()) [mkText "a" 10, mkText "b" 20, mkText "c" 60] 5 50 =
      ⟨some (mkText "c" 60), 3, 4⟩ ∧ (3 : Nat) ≠ 4 := by
  exact ⟨by decide, by decide⟩

/-- Claim C6 (code behaviour at the failing input): with all-short
stub responses and maxAttempts = 3, the loop makes only 2 model calls
across its 3 iterations (the first iteration invokes nothing) and
returns the 2nd stub response, not the 3rd/last one the claim
promises. -/
theorem analyze_c6_failing_input :
    analyze_image_from_url (some ()) [mkText "a" 10, mkText "b" 10, mkText "c" 10] 3 50 =
      ⟨some (mkText "b" 10), 2, 3⟩ ∧ mkText "b" 10 ≠ mkText "c" 10 := by
  exact ⟨by decide, by decide⟩

/- ===== Polling engine (VeoVideoService._poll_for_completion) ===== -/

/-- Result of one `_check_operation_status` call
(src/services/veo_video_service.py lines 246-298): either the
operation is not done yet, or it is done and succeeded with a list of
video URIs, or it is done and failed with an error detail (the method
catches its own exceptions and turns them into done-and-failed
results, so a check itself never raises). -/
inductive CheckResult where
  | notDone
  | doneSuccess (videos : List String)
  | doneFailure (error : String)
deriving DecidableEq

/-- Terminal state of one polling session
(src/services/veo_video_service.py lines 182-244), carrying the data
of the corresponding return dict: `Succeeded` the videos, `Failed` the
error message, `TimedOut` nothing but the poll count. -/
inductive PollResult where
  | Succeeded (videos : List String) (pollCount : Nat)
  | Failed (error : String) (pollCount : Nat)
  | TimedOut (pollCount : Nat)
deriving DecidableEq

/-- Embedding of the `while (datetime.now() - start_time).seconds <
max_wait_time` loop of `_poll_for_completion`: each iteration performs
one status check and, when the operation is not done, sleeps exactly 1
time unit, so the n-th check (0-based, result `checks n`) happens at
elapsed time n.  `budget` is the remaining time before the timeout
(`maxWait - elapsed`); `polls` is the Python `poll_count` so far. -/
def pollFrom (checks : Nat → CheckResult) : Nat → Nat → PollResult
  | 0, polls => .TimedOut polls
  | budget + 1, polls =>
    match checks polls with
    | .doneSuccess v => .Succeeded v (polls + 1)
    | .doneFailure e => .Failed e (polls + 1)
    | .notDone => pollFrom checks budget (polls + 1)

/-- Embedding of `_poll_for_completion(operation_id, max_wait_time)`
run against the status sequence `checks`: start at elapsed time 0 and
poll count 0. -/
def poll_for_completion (checks : Nat → CheckResult) (maxWait : Nat) : PollResult :=
  pollFrom checks maxWait 0

theorem pollFrom_advance (checks : Nat → CheckResult) (k : Nat) :
    ∀ b polls, (∀ m, m < k → checks (polls + m) = CheckResult.notDone) →
      pollFrom checks (k + b) polls = pollFrom checks b (polls + k) := by
  induction k with
  | zero => intro b polls _; simp
  | succ k ih =>
    intro b polls h
    have hstep : k + 1 + b = (k + b) + 1 := by omega
    rw [hstep]
    have h0 : checks polls = CheckResult.notDone := by
      have := h 0 (by omega); simpa using this
    simp only [pollFrom, h0]
    have := ih b (polls + 1) (fun m hm => by
      have := h (m + 1) (by omega)
      simpa [Nat.add_assoc, Nat.add_comm 1 m] using this)
    rw [this]
    congr 1
    omega

/-- Claim C3: for every status sequence the polling engine reaches
exactly one terminal state: the first check that reports done decides
it (Succeeded with the artifact URIs, or Failed with the error
detail), and if none of the checks fitting inside the timeout budget
reports done the result is TimedOut — a terminal state distinct from
Failed — with one unit of sleep between consecutive checks (check n
runs at elapsed time n). -/
theorem poll_for_completion_spec (checks : Nat → CheckResult) (maxWait : Nat) :
    (∀ n, n < maxWait → (∀ m, m < n → checks m = CheckResult.notDone) →
      (∀ v, checks n = CheckResult.doneSuccess v →
        poll_for_completion checks maxWait = PollResult.Succeeded v (n + 1)) ∧
      (∀ e, checks n = CheckResult.doneFailure e →
        poll_for_completion checks maxWait = PollResult.Failed e (n + 1))) ∧
    ((∀ n, n < maxWait → checks n = CheckResult.notDone) →
      poll_for_completion checks maxWait = PollResult.TimedOut maxWait) ∧
    (∀ e p q, PollResult.TimedOut q ≠ PollResult.Failed e p) := by
  refine ⟨?_, ?_, by intro e p q h; cases h⟩
  · intro n hn hbefore
    have hb : maxWait = n + (maxWait - n) := by omega
    have hadv := pollFrom_advance checks n (maxWait - n) 0
      (fun m hm => by simpa using hbefore m hm)
    obtain ⟨b', hb'⟩ : ∃ b', maxWait - n = b' + 1 := ⟨maxWait - n - 1, by omega⟩
    constructor
    · intro v hv
      unfold poll_for_completion
      rw [hb, hadv, hb']
      simp only [pollFrom, Nat.zero_add, hv]
    · intro e he
      unfold poll_for_completion
      rw [hb, hadv, hb']
      simp only [pollFrom, Nat.zero_add, he]
  · intro hall
    unfold poll_for_completion
    have hadv := pollFrom_advance checks maxWait 0 0
      (fun m hm => by simpa using hall m hm)
    rw [show maxWait = maxWait + 0 from rfl] at hadv ⊢
    rw [hadv]
    simp [pollFrom]

/-- Concrete status sequence for the C3 witness: not done twice, then
done with success. -/
def pollChecksEx : Nat → CheckResult :=
  fun n => if n < 2 then CheckResult.notDone else CheckResult.doneSuccess ["u"]

/-- Witness for claim C3: on the sequence [not-done, not-done,
done+success] with a budget of 10, the engine succeeds after 3 checks
carrying the artifact URI. -/
theorem poll_for_completion_spec_witness :
    poll_for_completion pollChecksEx 10 = PollResult.Succeeded ["u"] 3 :=
  ((poll_for_completion_spec pollChecksEx 10).1 2 (by decide)
    (fun m hm => by interval_cases m <;> rfl)).1 ["u"] rfl

/- ===== Python substring scan, split and replace ================== -/

/-- Boolean test that `pat` starts the list `l`. -/
def leadsList : List Char → List Char → Bool
  | [], _ => true
  | _ :: _, [] => false
  | a :: as, b :: bs => a == b && leadsList as bs

/-- Index of the first occurrence of `pat` in `s` under Python's
left-to-right scan, `none` when `pat` does not occur. -/
def findOcc (pat : List Char) : List Char → Option Nat
  | [] => if pat.isEmpty then some 0 else none
  | c :: rest =>
    if leadsList pat (c :: rest) then some 0
    else (findOcc pat rest).map (· + 1)

/-- Fuelled Python `s.split(sep)` for a non-empty separator: cut at
the first occurrence, then continue after it (occurrences are consumed
left to right and never overlap a consumed one).  Since each step
removes at least one character, fuel `s.length` is always enough. -/
def pySplitFuel (pat : List Char) : Nat → List Char → List (List Char)
  | 0, s => [s]
  | fuel + 1, s =>
    match findOcc pat s with
    | none => [s]
    | some i => s.take i :: pySplitFuel pat fuel (s.drop (i + pat.length))

/-- Python `s.split(sep)` for a non-empty separator. -/
def pySplit (pat s : List Char) : List (List Char) := pySplitFuel pat s.length s

/-- Fuelled Python `s.replace(old, new)` for a non-empty `old`:
replace the occurrences found by the same left-to-right scan as
`pySplit`.  Fuel `s.length` is always enough. -/
def pyReplaceFuel (pat rep : List Char) : Nat → List Char → List Char
  | 0, s => s
  | fuel + 1, s =>
    match findOcc pat s with
    | none => s
    | some i => s.take i ++ rep ++ pyReplaceFuel pat rep fuel (s.drop (i + pat.length))

/-- Python `s.replace(old, new)` for a non-empty `old`. -/
def pyReplace (pat rep s : List Char) : List Char := pyReplaceFuel pat rep s.length s

theorem leadsList_append_self (pat l : List Char) : leadsList pat (pat ++ l) = true := by
  induction pat with
  | nil => rfl
  | cons a as ih => simp [leadsList, ih]

theorem leadsList_nil_eq_true (pat : List Char) (h : leadsList pat [] = true) :
    pat = [] := by
  cases pat with
  | nil => rfl
  | cons a as => cases h

theorem findOcc_eq_some_first (pat : List Char) (hp : pat ≠ []) :
    ∀ (i : Nat) (s : List Char), leadsList pat (s.drop i) = true →
      (∀ j, j < i → leadsList pat (s.drop j) = false) →
      findOcc pat s = some i := by
  intro i
  induction i with
  | zero =>
    intro s hlead _
    cases s with
    | nil => exact absurd (leadsList_nil_eq_true pat hlead) hp
    | cons c rest =>
      simp only [List.drop_zero] at hlead
      simp only [findOcc]
      rw [if_pos hlead]
  | succ i ih =>
    intro s hlead hbefore
    cases s with
    | nil =>
      simp only [List.drop_nil] at hlead
      exact absurd (leadsList_nil_eq_true pat hlead) hp
    | cons c rest =>
      have h0 : leadsList pat (c :: rest) = false := by
        have := hbefore 0 (by omega); simpa using this
      simp only [findOcc]
      rw [if_neg (by simp [h0])]
      have hrest : findOcc pat rest = some i := by
        apply ih rest
        · simpa [List.drop_succ_cons] using hlead
        · intro j hj
          have := hbefore (j + 1) (by omega)
          simpa [List.drop_succ_cons] using this
      rw [hrest]
      rfl

theorem take_append_self (a b : List Char) : (a ++ b).take a.length = a := by
  induction a with
  | nil => rfl
  | cons x xs ih => simp [ih]

theorem drop_append_self (a b : List Char) : (a ++ b).drop a.length = b := by
  induction a with
  | nil => rfl
  | cons x xs ih => simp [ih]

theorem pySplitFuel_noOcc (pat : List Char) (fuel : Nat) (s : List Char)
    (h : findOcc pat s = none) : pySplitFuel pat fuel s = [s] := by
  cases fuel with
  | zero => rfl
  | succ f => simp [pySplitFuel, h]

/-- Splitting a string whose first separator occurrence sits right
after `pre`, with no occurrence inside the tail, yields exactly the
two pieces `pre` and `tail`. -/
theorem pySplit_two_pieces (pat pre tail : List Char) (hp : pat ≠ [])
    (h1 : ∀ j, j < pre.length → leadsList pat ((pre ++ pat ++ tail).drop j) = false)
    (h2 : findOcc pat tail = none) :
    pySplit pat (pre ++ pat ++ tail) = [pre, tail] := by
  have hfind : findOcc pat (pre ++ pat ++ tail) = some pre.length := by
    apply findOcc_eq_some_first pat hp
    · rw [List.append_assoc, drop_append_self]
      exact leadsList_append_self pat tail
    · exact h1
  have hlen : (pre ++ pat ++ tail).length = (pre.length + pat.length + tail.length - 1) + 1 := by
    have : pat.length ≠ 0 := by
      intro h; exact hp (List.eq_nil_of_length_eq_zero h)
    simp [List.length_append]
    omega
  unfold pySplit
  rw [hlen]
  simp only [pySplitFuel, hfind]
  have htake : (pre ++ pat ++ tail).take pre.length = pre := by
    rw [List.append_assoc]
    exact take_append_self pre (pat ++ tail)
  have hdrop : (pre ++ pat ++ tail).drop (pre.length + pat.length) = tail := by
    have : (pre ++ pat).length = pre.length + pat.length := by simp
    rw [← this]
    exact drop_append_self (pre ++ pat) tail
  rw [htake, hdrop, pySplitFuel_noOcc pat _ tail h2]

/- ===== Operation-id extraction (VeoVideoGenerator) =============== -/

/-- The separator `'/operations/'` used by
`VeoVideoGenerator.generate_video`
(src/veo_video_generator.py line 109). -/
def opSep : List Char := "/operations/".data

/-- Embedding of `operation_name.split('/operations/')[-1]`
(src/veo_video_generator.py line 109): the last piece of the Python
split. -/
def extract_operation_id (nameChars : List Char) : List Char :=
  (pySplit opSep nameChars).getLastD []

/-- Embedding of the response handling of `generate_video`
(src/veo_video_generator.py lines 100-116): read the `name` field of
the response body (defaulting to the empty string), return `None` when
it is falsy, otherwise return the short operation id extracted from
it. -/
def generate_video_result (respName : Option (List Char)) : Option (List Char) :=
  match respName with
  | none => none
  | some name => if name = [] then none else some (extract_operation_id name)

/-- Request body of the status-check call `fetch_operation`
(src/routers/main_controller.py lines 388-390): the payload's single
field is the operation name the caller passes in. -/
structure FetchRequest where
  operationName : List Char
deriving DecidableEq

/-- Embedding of the payload construction of `fetch_operation`: the
`operationName` field is exactly the argument, unchanged. -/
def fetch_operation_request (opName : List Char) : FetchRequest :=
  ⟨opName⟩

/- ===== Claim C1 ================================================== -/

/-- Claim C1 counterexample: the operation name
`projects/operations/operations/abc` has the claimed form
`<prefix>/operations/<id>` with prefix `projects/operations` and
trailing path segment `abc`, but the code's
`split('/operations/')[-1]` consumes the earlier separator occurrence
and returns `operations/abc`, not the trailing path segment. -/
theorem generate_video_short_id_counterexample :
    generate_video_result (some ("projects/operations/operations/abc".data)) =
      some ("operations/abc".data) ∧
    "projects/operations/operations/abc".data =
      "projects/operations".data ++ opSep ++ "abc".data ∧
    "operations/abc".data ≠ "abc".data := by
  refine ⟨by decide, by decide, by decide⟩

/-- Claim C1 (amended): for a submission response whose operation name
has the form `<prefix>/operations/<id>` where the displayed separator
is the first occurrence of `/operations/` in the name and `<id>`
contains no further occurrence, `generate_video` returns the short id
`<id>`, while the status-check call's request body carries the
fully-qualified operation name verbatim — which is distinct from the
short id, so the check uses the full name rather than the short id. -/
theorem generate_video_short_id_amended (pre idPart : List Char)
    (h1 : ∀ j, j < pre.length →
      leadsList opSep ((pre ++ opSep ++ idPart).drop j) = false)
    (h2 : findOcc opSep idPart = none) :
    generate_video_result (some (pre ++ opSep ++ idPart)) = some idPart ∧
    (fetch_operation_request (pre ++ opSep ++ idPart)).operationName =
      pre ++ opSep ++ idPart ∧
    pre ++ opSep ++ idPart ≠ idPart := by
  have hsep : opSep ≠ [] := by decide
  have hsplit := pySplit_two_pieces opSep pre idPart hsep h1 h2
  have hne : pre ++ opSep ++ idPart ≠ [] := by
    intro h
    rw [List.append_assoc] at h
    rcases List.append_eq_nil.mp h with ⟨-, h'⟩
    rcases List.append_eq_nil.mp h' with ⟨h'', -⟩
    exact hsep h''
  refine ⟨?_, rfl, ?_⟩
  · simp only [generate_video_result]
    rw [if_neg hne]
    unfold extract_operation_id
    rw [hsplit]
    rfl
  · intro h
    have := congrArg List.length h
    simp [List.length_append] at this
    have : opSep.length = 0 := by omega
    simp [opSep] at this

/-- Witness for claim C1 (amended): on the realistic operation name
`projects/p/locations/l/operations/abc123` the short id `abc123` is
returned. -/
theorem generate_video_short_id_amended_witness :
    generate_video_result
        (some ("projects/p/locations/l".data ++ opSep ++ "abc123".data)) =
      some ("abc123".data) :=
  (generate_video_short_id_amended "projects/p/locations/l".data "abc123".data
    (by decide) (by decide)).1

/- ===== Status-check URL rewrite (fetch_operation) ================ -/

/-- One entry of `response["videos"]` in the status-check response;
only the `gcsUri` key matters to the URL rewrite, and it may be
absent. -/
structure VideoEntry where
  gcsUri : Option String
deriving DecidableEq

/-- The nested `response` object of the status-check response body;
the `videos` key may be absent. -/
structure OperationRespBody where
  videos : Option (List VideoEntry)
deriving DecidableEq

/-- A 200-status response body of the
`fetchPredictOperation` call; the `response` key may be absent. -/
structure OperationResp where
  response : Option OperationRespBody
deriving DecidableEq

/-- The `gs://` scheme pattern replaced by `fetch_operation`. -/
def gsPat : List Char := "gs://".data

/-- The public HTTPS form substituted by `fetch_operation`. -/
def httpsRep : List Char := "https://storage.cloud.google.com/".data

/-- Embedding of the `formatted_video_url` extraction of
`fetch_operation` (src/routers/main_controller.py lines 398-412):
defensively navigate to `response.videos[0].gcsUri` and, when present,
apply `gcs_uri.replace("gs://", "https://storage.cloud.google.com/")`;
any missing level yields no URL rather than a failure. -/
def formatted_video_url (d : OperationResp) : Option (List Char) :=
  match d.response with
  | none => none
  | some body =>
    match body.videos with
    | none => none
    | some [] => none
    | some (v :: _) =>
      match v.gcsUri with
      | none => none
      | some uri => some (pyReplace gsPat httpsRep uri.data)

/-- The first video's `gcsUri` of a status-check response, when every
level of the nested structure is present. -/
def firstVideoGcsUri (d : OperationResp) : Option String :=
  match d.response with
  | none => none
  | some body =>
    match body.videos with
    | none => none
    | some [] => none
    | some (v :: _) => v.gcsUri

theorem pyReplaceFuel_noOcc (pat rep : List Char) (fuel : Nat) (s : List Char)
    (h : findOcc pat s = none) : pyReplaceFuel pat rep fuel s = s := by
  cases fuel with
  | zero => rfl
  | succ f => simp [pyReplaceFuel, h]

/-- Replacing a pattern that occurs only as the leading characters of
the string substitutes it exactly once. -/
theorem pyReplace_leading_only (pat rep tail : List Char) (hp : pat ≠ [])
    (h : findOcc pat tail = none) :
    pyReplace pat rep (pat ++ tail) = rep ++ tail := by
  have hfind : findOcc pat (pat ++ tail) = some 0 := by
    apply findOcc_eq_some_first pat hp
    · simpa using leadsList_append_self pat tail
    · intro j hj; omega
  have hlen : (pat ++ tail).length = (pat.length + tail.length - 1) + 1 := by
    have : pat.length ≠ 0 := by
      intro h'; exact hp (List.eq_nil_of_length_eq_zero h')
    simp [List.length_append]
    omega
  unfold pyReplace
  rw [hlen]
  simp only [pyReplaceFuel, hfind]
  rw [List.take_zero, List.nil_append, Nat.zero_add, drop_append_self,
    pyReplaceFuel_noOcc pat rep _ tail h]

/- ===== Claim C5 ================================================== -/

/-- Claim C5 counterexample: the gcsUri `gs://b/gs://x` has the form
`gs://<bucket>/<path>` with bucket `b` and path `gs://x`, but
Python's `replace` substitutes every occurrence of `gs://`, so the
code returns a URL with the path's own `gs://` rewritten too, not
`https://storage.cloud.google.com/b/gs://x` as claimed. -/
theorem formatted_video_url_counterexample :
    formatted_video_url ⟨some ⟨some [⟨some "gs://b/gs://x"⟩]⟩⟩ =
      some ("https://storage.cloud.google.com/b/https://storage.cloud.google.com/x".data) ∧
    "https://storage.cloud.google.com/b/https://storage.cloud.google.com/x".data ≠
      "https://storage.cloud.google.com/b/gs://x".data := by
  refine ⟨by decide, by decide⟩

/-- Claim C5 (amended): for every successful status-check response
whose first video's gcsUri has the form `gs://<bucket>/<path>` where
`gs://` does not occur again inside `<bucket>/<path>`, the formatted
video URL is `https://storage.cloud.google.com/<bucket>/<path>`. -/
theorem formatted_video_url_amended (d : OperationResp) (uri : String)
    (tail : List Char) (h0 : firstVideoGcsUri d = some uri)
    (h1 : uri.data = gsPat ++ tail) (h2 : findOcc gsPat tail = none) :
    formatted_video_url d = some (httpsRep ++ tail) := by
  rcases d with ⟨resp⟩
  cases resp with
  | none => simp [firstVideoGcsUri] at h0
  | some body =>
    rcases body with ⟨vids⟩
    cases vids with
    | none => simp [firstVideoGcsUri] at h0
    | some l =>
      cases l with
      | nil => simp [firstVideoGcsUri] at h0
      | cons v rest =>
        have hv : v.gcsUri = some uri := by
          simpa [firstVideoGcsUri] using h0
        simp only [formatted_video_url, hv]
        rw [h1, pyReplace_leading_only gsPat httpsRep tail (by decide) h2]

/-- Witness for claim C5 (amended): the spec's own example,
`gs://bucket1/videos/x.mp4`, rewrites to
`https://storage.cloud.google.com/bucket1/videos/x.mp4`. -/
theorem formatted_video_url_amended_witness :
    formatted_video_url ⟨some ⟨some [⟨some "gs://bucket1/videos/x.mp4"⟩]⟩⟩ =
      some (httpsRep ++ "bucket1/videos/x.mp4".data) :=
  formatted_video_url_amended ⟨some ⟨some [⟨some "gs://bucket1/videos/x.mp4"⟩]⟩⟩
    "gs://bucket1/videos/x.mp4" "bucket1/videos/x.mp4".data rfl (by decide) (by decide)

/- ===== Python dicts and the video request parameters ============= -/

/-- A Python scalar value as it occurs in the request parameter dicts
and in stored documents. -/
inductive PyVal where
  | str (s : String)
  | int (n : Int)
  | bool (b : Bool)
  | null
deriving DecidableEq

/-- Lookup in an association-list dict. -/
def dictGetList (d : List (String × PyVal)) (k : String) : Option PyVal :=
  match d.find? (fun p => p.1 == k) with
  | some p => some p.2
  | none => none

/-- Embedding of `self.default_params`
(src/veo_video_generator.py lines 39-49). -/
def default_params : List (String × PyVal) :=
  [("aspectRatio", PyVal.str "9:16"),
   ("sampleCount", PyVal.int 1),
   ("durationSeconds", PyVal.str "8"),
   ("personGeneration", PyVal.str "allow_all"),
   ("addWatermark", PyVal.bool true),
   ("includeRaiReason", PyVal.bool true),
   ("generateAudio", PyVal.bool false),
   ("resolution", PyVal.str "720p"),
   ("storageUri", PyVal.str "gs://videobucketai1/videos/")]

/-- Embedding of the parameter merge of `generate_video`
(src/veo_video_generator.py lines 70-73), viewed as key lookup:
`params = self.default_params.copy()` then, when custom parameters
were given, `params.update(custom_params)`, so a key resolves to the
caller's value when the caller supplied one and to the default
otherwise. -/
def generate_video_params (custom : Option (String → Option PyVal)) :
    String → Option PyVal :=
  fun k =>
    match custom with
    | none => dictGetList default_params k
    | some c =>
      match c k with
      | some v => some v
      | none => dictGetList default_params k

/-- A custom-parameters dict holding only one unrecognized key. -/
def unknownKeyCustom : String → Option PyVal :=
  fun k => if k = "someUnknownKey" then some (PyVal.str "v") else none

/- ===== Claim C7 ================================================== -/

/-- Claim C7 counterexample: an override dict carrying only the
unrecognized key `someUnknownKey` still gets that key copied into the
request parameters by `dict.update`, so unknown override keys are not
ignored and do appear in the request sent upstream. -/
theorem generate_video_params_counterexample :
    generate_video_params (some unknownKeyCustom) "someUnknownKey" =
      some (PyVal.str "v") ∧
    dictGetList default_params "someUnknownKey" = none := by
  refine ⟨by decide, by decide⟩

/-- Claim C7 (amended): the request's parameters are the fixed
default set overridden by every caller-supplied key, recognized or
not: a key the caller sets resolves to the caller's value (so unknown
keys are passed through to the request, not ignored), a key the
caller leaves unset resolves to its default, and with no caller dict
the parameters are exactly the nine defaults listed in the source. -/
theorem generate_video_params_amended (c : String → Option PyVal) (k : String) :
    (c k = none →
      generate_video_params (some c) k = dictGetList default_params k) ∧
    (∀ v, c k = some v → generate_video_params (some c) k = some v) ∧
    generate_video_params none k = dictGetList default_params k ∧
    default_params.map Prod.fst =
      ["aspectRatio", "sampleCount", "durationSeconds", "personGeneration",
       "addWatermark", "includeRaiReason", "generateAudio", "resolution",
       "storageUri"] ∧
    dictGetList default_params "aspectRatio" = some (PyVal.str "9:16") ∧
    dictGetList default_params "sampleCount" = some (PyVal.int 1) ∧
    dictGetList default_params "durationSeconds" = some (PyVal.str "8") ∧
    dictGetList default_params "resolution" = some (PyVal.str "720p") ∧
    dictGetList default_params "personGeneration" = some (PyVal.str "allow_all") ∧
    dictGetList default_params "addWatermark" = some (PyVal.bool true) ∧
    dictGetList default_params "generateAudio" = some (PyVal.bool false) ∧
    dictGetList default_params "storageUri" =
      some (PyVal.str "gs://videobucketai1/videos/") := by
  refine ⟨?_, ?_, by rfl, by decide, by decide, by decide, by decide, by decide,
    by decide, by decide, by decide, by decide⟩
  · intro h
    simp [generate_video_params, h]
  · intro v h
    simp [generate_video_params, h]

/-- Witness for claim C7 (amended): a caller override of
`aspectRatio` wins over the default. -/
theorem generate_video_params_amended_witness :
    generate_video_params
        (some (fun k => if k = "aspectRatio" then some (PyVal.str "16:9") else none))
        "aspectRatio" = some (PyVal.str "16:9") :=
  ((generate_video_params_amended
      (fun k => if k = "aspectRatio" then some (PyVal.str "16:9") else none)
      "aspectRatio").2.1 (PyVal.str "16:9") (by decide))

/- ===== Document store (MongoDB) ================================== -/

/-- A stored document: a mapping from field names to values, absent
fields being `none`. -/
def Doc : Type := String → Option PyVal

/-- The document store: a mapping from record ids to documents. -/
def Store : Type := String → Option Doc

/-- Set one field of a document (MongoDB `$set` of a single key). -/
def setField (d : Doc) (k : String) (v : PyVal) : Doc :=
  fun f => if f = k then some v else d f

/-- Embedding of `collection.update_one(filter-by-id, {"$set": ...})`
with no upsert: when a document with the given id exists, apply the
update to it and report 1 matched document; otherwise change nothing
and report 0 matched. -/
def mongo_update_one (store : Store) (fid : String) (upd : Doc → Doc) :
    Store × Nat :=
  match store fid with
  | none => (store, 0)
  | some d => (fun r => if r = fid then some (upd d) else store r, 1)

/-- Embedding of `MongoRepo.update_gen_reel`
(src/MongoRepo.py lines 29-61): one `update_one` setting the
`operation_name` field, returning `True` exactly when
`matched_count > 0`. -/
def update_gen_reel (store : Store) (object_id operation_id : String) :
    Store × Bool :=
  let r := mongo_update_one store object_id
    (fun d => setField d "operation_name" (PyVal.str operation_id))
  (r.1, decide (0 < r.2))

/- ===== Claim C8 ================================================== -/

/-- Claim C8: when the record id does not resolve to an existing
record, `update_gen_reel` returns the store unchanged together with
`false` (not-found); no record is created and nothing is raised. -/
theorem update_gen_reel_not_found (store : Store) (object_id operation_id : String)
    (h : store object_id = none) :
    update_gen_reel store object_id operation_id = (store, false) := by
  simp [update_gen_reel, mongo_update_one, h]

/-- The empty store, for the C8 witness. -/
def emptyStore : Store := fun _ => none

/-- Witness for claim C8: updating a missing id in the empty store is
a reported-false no-op. -/
theorem update_gen_reel_not_found_witness :
    update_gen_reel emptyStore "64b000000000000000000000" "op-1" =
      (emptyStore, false) :=
  update_gen_reel_not_found emptyStore "64b000000000000000000000" "op-1" rfl

/- ===== Claim C9 ================================================== -/

/-- Outcome of the `fetch_operation` call awaited inside
`fetch_and_populate_reels_background`: a success response carrying an
optional formatted video URL, or any raised error. -/
inductive FetchOutcome where
  | fetchSuccess (formattedUrl : Option String)
  | fetchError (message : String)
deriving DecidableEq

/-- Embedding of `fetch_and_populate_reels_background`
(src/routers/main_controller.py lines 244-293) as a function of the
fetch outcome: on a success whose formatted URL is truthy the `reels`
field is set to that URL, otherwise (no URL, empty-string URL, or any
error caught by the `except` clause) `reels` is set to null; either
way one `update_one` writes exactly the `reels` and `updated_at`
fields. -/
def reels_value (outcome : FetchOutcome) : PyVal :=
  match outcome with
  | .fetchSuccess (some url) => if url = "" then PyVal.null else PyVal.str url
  | .fetchSuccess none => PyVal.null
  | .fetchError _ => PyVal.null

/-- The single `update_one` write performed by
`fetch_and_populate_reels_background`, applied to the fetched
outcome. -/
def fetch_and_populate_reels (store : Store) (object_id : String)
    (outcome : FetchOutcome) (now : PyVal) : Store :=
  (mongo_update_one store object_id
    (fun d => setField (setField d "reels" (reels_value outcome)) "updated_at" now)).1

/-- Claim C9: for every record and every outcome of the background
reels fetch, the derived-artifact write touches only the `reels` field
and the `updated_at` timestamp of the targeted record: other records
are untouched, every other field of the targeted record keeps its
value, and in particular `processing_status` is unchanged. -/
theorem fetch_and_populate_reels_frame (store : Store) (object_id : String)
    (outcome : FetchOutcome) (now : PyVal) :
    (∀ r, r ≠ object_id →
      fetch_and_populate_reels store object_id outcome now r = store r) ∧
    (∀ d, store object_id = some d →
      ∃ d', fetch_and_populate_reels store object_id outcome now object_id = some d' ∧
        ∀ f, f ≠ "reels" → f ≠ "updated_at" → d' f = d f) ∧
    (∀ d d', store object_id = some d →
      fetch_and_populate_reels store object_id outcome now object_id = some d' →
      d' "processing_status" = d "processing_status") := by
  refine ⟨?_, ?_, ?_⟩
  · intro r hr
    unfold fetch_and_populate_reels mongo_update_one
    cases hs : store object_id with
    | none => simp
    | some d => simp [hr]
  · intro d hd
    refine ⟨setField (setField d "reels" (reels_value outcome)) "updated_at" now, ?_, ?_⟩
    · unfold fetch_and_populate_reels mongo_update_one
      rw [hd]
      simp
    · intro f hf1 hf2
      simp [setField, hf1, hf2]
  · intro d d' hd hd'
    unfold fetch_and_populate_reels mongo_update_one at hd'
    rw [hd] at hd'
    simp only [eq_self_iff_true, if_true, Option.some.injEq] at hd'
    subst hd'
    simp [setField]

/-- A record whose `processing_status` field reads `processing`, for
the C9 witness. -/
def procDoc : Doc :=
  fun f => if f = "processing_status" then some (PyVal.str "processing") else none

/-- A one-record store holding `procDoc` under id `rec1`, for the C9
witness. -/
def oneRecordStore : Store :=
  fun r => if r = "rec1" then some procDoc else none

/-- Witness for claim C9: after a successful background fetch writes a
URL into `rec1`, the updated record's `processing_status` still reads
exactly what it read before the write. -/
theorem fetch_and_populate_reels_frame_witness :
    setField (setField procDoc "reels"
        (reels_value
          (FetchOutcome.fetchSuccess (some "https://storage.cloud.google.com/b/v.mp4"))))
      "updated_at" (PyVal.str "t1") "processing_status" =
      procDoc "processing_status" :=
  (fetch_and_populate_reels_frame oneRecordStore "rec1"
    (FetchOutcome.fetchSuccess (some "https://storage.cloud.google.com/b/v.mp4"))
    (PyVal.str "t1")).2.2 procDoc _ (by simp [oneRecordStore]) rfl

/- ===== Config validation (VeoVideoService._validate_config) ====== -/

/-- Caller-supplied video-generation config; each key may be absent.
Keys other than these three are never read by the validator and are
therefore not modelled. -/
structure VideoConfigIn where
  aspectRatio : Option String
  durationSeconds : Option Int
  numberOfVideos : Option Int
deriving DecidableEq

/-- The validated config returned by `_validate_config`; all three
keys are always present. -/
structure ValidatedConfig where
  aspectRatio : String
  durationSeconds : Int
  numberOfVideos : Int
deriving DecidableEq

/-- Embedding of `VeoVideoService._validate_config`
(src/services/veo_video_service.py lines 37-65): start from the
defaults, copy only the supported parameter `numberOfVideos` from the
caller's config, then clamp each value back to its default when it
falls outside the allowed set or range. -/
def validate_config (cfg : VideoConfigIn) : ValidatedConfig :=
  let base : ValidatedConfig := ⟨"16:9", 5, 1⟩
  let merged :=
    match cfg.numberOfVideos with
    | some n => { base with numberOfVideos := n }
    | none => base
  let v1 :=
    if ["16:9", "9:16", "1:1", "4:3", "3:4"].contains merged.aspectRatio then merged
    else { merged with aspectRatio := "16:9" }
  let v2 :=
    if 1 ≤ v1.durationSeconds ∧ v1.durationSeconds ≤ 30 then v1
    else { v1 with durationSeconds := 5 }
  if 1 ≤ v2.numberOfVideos ∧ v2.numberOfVideos ≤ 4 then v2
  else { v2 with numberOfVideos := 1 }

/- ===== Claim C10 ================================================= -/

/-- Claim C10: the validated config always has an aspect ratio from
the allowed set, a duration in [1, 30] and a video count in [1, 4];
the only caller key ever copied into the result is `numberOfVideos`
(kept when in range, reset to 1 otherwise), while caller-supplied
`aspectRatio` and `durationSeconds` are always discarded in favour of
the defaults 16:9 and 5 — so the result depends on nothing but the
caller's `numberOfVideos`. -/
theorem validate_config_spec (cfg : VideoConfigIn) :
    (validate_config cfg).aspectRatio = "16:9" ∧
    ["16:9", "9:16", "1:1", "4:3", "3:4"].contains
      (validate_config cfg).aspectRatio = true ∧
    (validate_config cfg).durationSeconds = 5 ∧
    (1 ≤ (validate_config cfg).durationSeconds ∧
      (validate_config cfg).durationSeconds ≤ 30) ∧
    (1 ≤ (validate_config cfg).numberOfVideos ∧
      (validate_config cfg).numberOfVideos ≤ 4) ∧
    (∀ n, cfg.numberOfVideos = some n → 1 ≤ n → n ≤ 4 →
      (validate_config cfg).numberOfVideos = n) ∧
    (∀ n, cfg.numberOfVideos = some n → ¬(1 ≤ n ∧ n ≤ 4) →
      (validate_config cfg).numberOfVideos = 1) ∧
    (cfg.numberOfVideos = none → (validate_config cfg).numberOfVideos = 1) ∧
    (∀ cfg2 : VideoConfigIn, cfg2.numberOfVideos = cfg.numberOfVideos →
      validate_config cfg2 = validate_config cfg) := by
  rcases cfg with ⟨a, dur, nv⟩
  cases nv with
  | none =>
    have hv : validate_config ⟨a, dur, none⟩ = ⟨"16:9", 5, 1⟩ := rfl
    rw [hv]
    refine ⟨rfl,
      (by decide : (["16:9", "9:16", "1:1", "4:3", "3:4"].contains "16:9") = true),
      rfl, (by decide : (1 : Int) ≤ 5 ∧ (5 : Int) ≤ 30),
      (by decide : (1 : Int) ≤ 1 ∧ (1 : Int) ≤ 4), ?_, ?_, ?_, ?_⟩
    · intro n h; cases h
    · intro n h; cases h
    · intro _; rfl
    · intro cfg2 h
      rcases cfg2 with ⟨a2, d2, n2⟩
      simp only at h
      subst h
      rfl
  | some n =>
    by_cases hr : 1 ≤ n ∧ n ≤ 4
    · have hv : validate_config ⟨a, dur, some n⟩ = ⟨"16:9", 5, n⟩ := by
        simp [validate_config, hr]
      rw [hv]
      refine ⟨rfl,
        (by decide : (["16:9", "9:16", "1:1", "4:3", "3:4"].contains "16:9") = true),
        rfl, (by decide : (1 : Int) ≤ 5 ∧ (5 : Int) ≤ 30), hr, ?_, ?_, ?_, ?_⟩
      · intro m hm _ _
        simp only [Option.some.injEq] at hm
        exact hm
      · intro m hm hcon
        simp only [Option.some.injEq] at hm
        subst hm
        exact absurd hr hcon
      · intro h; cases h
      · intro cfg2 h
        rcases cfg2 with ⟨a2, d2, n2⟩
        simp only at h
        subst h
        simp [validate_config, hr]
    · have hv : validate_config ⟨a, dur, some n⟩ = ⟨"16:9", 5, 1⟩ := by
        simp [validate_config, hr]
      rw [hv]
      refine ⟨rfl,
        (by decide : (["16:9", "9:16", "1:1", "4:3", "3:4"].contains "16:9") = true),
        rfl, (by decide : (1 : Int) ≤ 5 ∧ (5 : Int) ≤ 30),
        (by decide : (1 : Int) ≤ 1 ∧ (1 : Int) ≤ 4), ?_, ?_, ?_, ?_⟩
      · intro m hm h1 h4
        simp only [Option.some.injEq] at hm
        subst hm
        exact absurd ⟨h1, h4⟩ hr
      · intro m _ _; rfl
      · intro h; cases h
      · intro cfg2 h
        rcases cfg2 with ⟨a2, d2, n2⟩
        simp only at h
        subst h
        simp [validate_config, hr]

/-- Witness for claim C10: a config requesting three videos with an
out-of-set aspect ratio and an out-of-range duration validates to
16:9, 5 seconds and 3 videos. -/
theorem validate_config_spec_witness :
    (validate_config ⟨some "21:9", some 120, some 3⟩).numberOfVideos = 3 ∧
    (validate_config ⟨some "21:9", some 120, some 3⟩).aspectRatio = "16:9" ∧
    (validate_config ⟨some "21:9", some 120, some 3⟩).durationSeconds = 5 :=
  ⟨(validate_config_spec ⟨some "21:9", some 120, some 3⟩).2.2.2.2.2.1 3 rfl
      (by decide) (by decide),
   (validate_config_spec ⟨some "21:9", some 120, some 3⟩).1,
   (validate_config_spec ⟨some "21:9", some 120, some 3⟩).2.2.1⟩
